import Mathlib

/-!
Shallow embedding of the `exo` telemetry subsystem:
  * `src/exo/worker/engines/mlx/availability.py` (capability backend loader),
  * `src/exo/worker/utils/profile.py` (metrics source adapter and polling engine).

External effects (OS calls, the native macmon collaborator, the caller-supplied
sink, the process environment) are modelled as explicit environment records fed
to each function; exceptions are modelled with `Except` and an `Exn` kind that
distinguishes the two exception classes the source handles specially
(`MacMonError`, `asyncio.TimeoutError`) from every other kind.
-/

namespace Exo

instance (ε α : Type) [DecidableEq ε] [DecidableEq α] : DecidableEq (Except ε α) := fun x y =>
  match x, y with
  | .error e, .error f =>
      if h : e = f then .isTrue (by rw [h]) else .isFalse (fun hh => by cases hh; exact h rfl)
  | .error _, .ok _ => .isFalse (fun hh => by cases hh)
  | .ok _, .error _ => .isFalse (fun hh => by cases hh)
  | .ok a, .ok b =>
      if h : a = b then .isTrue (by rw [h]) else .isFalse (fun hh => by cases hh; exact h rfl)

/-- Exception kinds relevant to the source's `except` clauses:
`MacMonError`, `asyncio.TimeoutError`, and anything else. -/
inductive Exn where
  | macmon
  | timeout
  | other
  deriving DecidableEq, Repr

/-- Python's `str.lower()` as the source applies it to `platform.system()`
(ASCII platform names), mapped characterwise. -/
def lowerAscii (s : String) : String := ⟨s.data.map Char.toLower⟩

/-! ## Capability backend loader (`availability.py`) -/

/-- `MlxUnavailableError`: platform predicate failed, or the MLX imports failed. -/
inductive MlxUnavailableError where
  | platformMismatch (detected : String)
  | depsMissing
  deriving DecidableEq, Repr

/-- The module `exo.worker.engines.mlx.generator.generate`, as the entry points
`_build_backend` reads from it (entry points are opaque identifiers). -/
structure GenerateModule where
  mlx_generate : ℕ
  warmup_inference : ℕ
  deriving DecidableEq, Repr

/-- The module `exo.worker.engines.mlx.utils_mlx`, as the entry points
`_build_backend` reads from it. -/
structure UtilsMlxModule where
  initialize_mlx : ℕ
  mlx_force_oom : ℕ
  deriving DecidableEq, Repr

/-- The `SimpleNamespace` bundle produced by `_build_backend`. -/
structure Backend where
  initialize_mlx : ℕ
  mlx_force_oom : ℕ
  mlx_generate : ℕ
  warmup_inference : ℕ
  deriving DecidableEq, Repr

/-- Environment of one `_build_backend` attempt: the host platform string
(`platform.system()`) and the outcome of the two `importlib.import_module`
calls (`.error` models `ImportError`). -/
structure BuildEnv where
  system : String
  imported : Except Unit (GenerateModule × UtilsMlxModule)
  deriving DecidableEq, Repr

/-- `_build_backend` (availability.py lines 16-40): platform check, imports,
then assemble the namespace bundle. -/
def _build_backend (env : BuildEnv) : Except MlxUnavailableError Backend :=
  if lowerAscii env.system ≠ "darwin" then
    .error (.platformMismatch env.system)
  else
    match env.imported with
    | .error _ => .error .depsMissing
    | .ok (generate, utils_mlx) =>
        .ok ⟨utils_mlx.initialize_mlx, utils_mlx.mlx_force_oom,
             generate.mlx_generate, generate.warmup_inference⟩

/-- The process-wide loader state: the `load_mlx_backend._cached` attribute,
absent (`none`) until the first successful build. -/
structure LoaderState where
  cached : Option Backend
  deriving DecidableEq, Repr

/-- Observable outcome of one `load_mlx_backend` call: the returned value or
raised error, the state afterwards, how many times `_build_backend` ran during
the call, and how many warnings were logged during the call. -/
structure LoadOutcome where
  result : Except MlxUnavailableError Backend
  final : LoaderState
  builds : ℕ
  warnings : ℕ
  deriving DecidableEq, Repr

/-- `load_mlx_backend` (availability.py lines 43-53): if a cached bundle exists
return it; otherwise run `_build_backend`, caching success, and on
`MlxUnavailableError` log one warning and re-raise without caching. -/
def load_mlx_backend (st : LoaderState) (env : BuildEnv) : LoadOutcome :=
  match st.cached with
  | some b => ⟨.ok b, st, 0, 0⟩
  | none =>
      match _build_backend env with
      | .ok b => ⟨.ok b, ⟨some b⟩, 1, 0⟩
      | .error e => ⟨.error e, st, 1, 1⟩

/-- A sequence of `n` consecutive `load_mlx_backend` calls against a fixed
environment: final state, total `_build_backend` runs, total warnings, and the
list of per-call results. -/
def runLoaderCalls (st : LoaderState) (env : BuildEnv) :
    ℕ → LoaderState × ℕ × ℕ × List (Except MlxUnavailableError Backend)
  | 0 => (st, 0, 0, [])
  | n + 1 =>
      let o := load_mlx_backend st env
      let rest := runLoaderCalls o.final env n
      (rest.1, o.builds + rest.2.1, o.warnings + rest.2.2.1, o.result :: rest.2.2.2)

lemma load_mlx_backend_cached (st : LoaderState) (env : BuildEnv) (b : Backend)
    (h : st.cached = some b) :
    load_mlx_backend st env = ⟨.ok b, st, 0, 0⟩ := by
  unfold load_mlx_backend
  rw [h]

lemma load_mlx_backend_success_cached (st : LoaderState) (env : BuildEnv) (b : Backend)
    (h : (load_mlx_backend st env).result = .ok b) :
    (load_mlx_backend st env).final.cached = some b := by
  rcases st with ⟨_ | b2⟩
  · simp only [load_mlx_backend] at h ⊢
    cases hb : _build_backend env with
    | ok b3 =>
        rw [hb] at h
        injection h with h2
        exact congrArg Option.some h2
    | error e =>
        rw [hb] at h
        exact Except.noConfusion h
  · simp only [load_mlx_backend] at h ⊢
    injection h with h2
    exact congrArg Option.some h2

lemma runLoaderCalls_cached (st : LoaderState) (env : BuildEnv) (b : Backend)
    (h : st.cached = some b) (n : ℕ) :
    runLoaderCalls st env n = (st, 0, 0, List.replicate n (Except.ok b)) := by
  induction n with
  | zero => rfl
  | succ n ih =>
      unfold runLoaderCalls
      rw [load_mlx_backend_cached st env b h]
      simp [ih, List.replicate_succ]

/-- C5: after a first successful `load_mlx_backend` call, every later call
(under any environment) returns the identical cached handle, runs
`_build_backend` zero times (no platform re-check, no re-resolution), logs
nothing, and leaves the state unchanged. -/
theorem C5_cached_identity (st : LoaderState) (env env2 : BuildEnv) (b : Backend) (n : ℕ)
    (hsucc : (load_mlx_backend st env).result = .ok b) :
    runLoaderCalls (load_mlx_backend st env).final env2 n =
      ((load_mlx_backend st env).final, 0, 0, List.replicate n (Except.ok b)) :=
  runLoaderCalls_cached _ env2 b (load_mlx_backend_success_cached st env b hsucc) n

/-- Concrete successful environment: macOS with both imports resolving. -/
def envDarwinOk : BuildEnv :=
  ⟨"Darwin", .ok (⟨3, 4⟩, ⟨1, 2⟩)⟩

/-- Concrete failing environment: a non-macOS platform. -/
def envLinux : BuildEnv :=
  ⟨"Linux", .ok (⟨3, 4⟩, ⟨1, 2⟩)⟩

/-- Witness for C5 at a concrete first success, with the later calls made
under a different (failing) platform environment. -/
theorem C5_cached_identity_witness :
    (load_mlx_backend ⟨none⟩ envDarwinOk).result = .ok ⟨1, 2, 3, 4⟩ ∧
    runLoaderCalls (load_mlx_backend ⟨none⟩ envDarwinOk).final envLinux 2 =
      ((load_mlx_backend ⟨none⟩ envDarwinOk).final, 0, 0,
        List.replicate 2 (Except.ok ⟨1, 2, 3, 4⟩)) :=
  ⟨by decide, C5_cached_identity ⟨none⟩ envDarwinOk envLinux ⟨1, 2, 3, 4⟩ 2 (by decide)⟩

/-- C6: while the cache is empty and `_build_backend` fails (platform predicate
or resolution failure), every one of `n` consecutive calls re-runs the full
resolution (n builds), raises the error (n failing results), logs exactly one
warning per call (n warnings), and never populates the cache. -/
theorem C6_failure_never_cached (st : LoaderState) (env : BuildEnv)
    (e : MlxUnavailableError) (n : ℕ)
    (hcache : st.cached = none) (hfail : _build_backend env = .error e) :
    runLoaderCalls st env n = (st, n, n, List.replicate n (Except.error e)) := by
  induction n with
  | zero => rfl
  | succ n ih =>
      unfold runLoaderCalls
      unfold load_mlx_backend
      rw [hcache, hfail]
      simp [ih, List.replicate_succ, Nat.add_comm]

/-- Witness for C6: three consecutive calls on a Linux host each fail with the
platform-mismatch error, each log one warning, and the cache stays empty. -/
theorem C6_failure_never_cached_witness :
    (⟨none⟩ : LoaderState).cached = none ∧
    _build_backend envLinux = .error (.platformMismatch "Linux") ∧
    runLoaderCalls ⟨none⟩ envLinux 3 =
      (⟨none⟩, 3, 3, List.replicate 3 (Except.error (.platformMismatch "Linux"))) :=
  ⟨rfl, by decide,
    C6_failure_never_cached ⟨none⟩ envLinux (.platformMismatch "Linux") 3 rfl (by decide)⟩

/-! ## Metrics model and metrics source adapter (`profile.py`) -/

/-- `TempMetrics` (imported from `macmon`): the nested temperature record. -/
structure TempMetrics where
  cpu_temp_avg : ℚ
  gpu_temp_avg : ℚ
  deriving DecidableEq, Repr

/-- `Metrics` (imported from `macmon`): a point-in-time hardware sample.
Floating-point fields are idealized as rationals. -/
structure Metrics where
  all_power : ℚ
  ane_power : ℚ
  cpu_power : ℚ
  ecpu_usage : ℕ × ℚ
  gpu_power : ℚ
  gpu_ram_power : ℚ
  gpu_usage : ℕ × ℚ
  pcpu_usage : ℕ × ℚ
  ram_power : ℚ
  sys_power : ℚ
  temp : TempMetrics
  timestamp : String
  deriving DecidableEq, Repr

/-- Outcome of `psutil.sensors_temperatures`: a family of sensor groups, each
an ordered sequence of readings whose `current` value may be missing, or a
`NotImplementedError`/`psutil.Error` (`err`). -/
inductive SensorsResult where
  | ok (groups : List (List (Option ℚ)))
  | err
  deriving DecidableEq, Repr

/-- The flattened `current` values: `[sensor.current for readings in
temps.values() for sensor in readings if sensor.current is not None]`. -/
def flatSensorCurrents (groups : List (List (Option ℚ))) : List ℚ :=
  (groups.map (fun readings => readings.filterMap id)).flatten

/-- Arithmetic mean of a list of readings. -/
def arithMean (l : List ℚ) : ℚ := l.sum / l.length

/-- The `avg_temp` computation of `_collect_generic_metrics` (profile.py lines
48-60): `0.0` on a sensor-subsystem error, otherwise the mean of the flattened
currents, `0.0` when there are none. -/
def avgSensorTemp : SensorsResult → ℚ
  | .err => 0
  | .ok groups =>
      let flat := flatSensorCurrents groups
      if flat = [] then 0 else arithMean flat

/-- `_collect_generic_metrics` (profile.py lines 43-75): synthesize a `Metrics`
record from `psutil.cpu_percent`, `psutil.cpu_count(logical=True) or 0`, and
the sensor temperatures. -/
def _collect_generic_metrics (cpu_percent : ℚ) (logical_cpu_count : Option ℕ)
    (sensors : SensorsResult) : Metrics :=
  let logical_cpus := logical_cpu_count.getD 0
  let avg_temp := avgSensorTemp sensors
  { all_power := 0, ane_power := 0, cpu_power := 0,
    ecpu_usage := (0, 0), gpu_power := 0, gpu_ram_power := 0,
    gpu_usage := (0, 0), pcpu_usage := (logical_cpus, cpu_percent),
    ram_power := 0, sys_power := 0,
    temp := ⟨avg_temp, avg_temp⟩, timestamp := "" }

/-- External inputs of one `get_metrics_async` call: the host platform string,
the outcome of the native macmon collaborator (`.error` models a raised
exception, `.ok none` is its `Absent` result), and the psutil readings used by
the generic fallback path. -/
structure MetricsEnv where
  system : String
  macmon : Except Exn (Option Metrics)
  cpu_percent : ℚ
  logical_cpu_count : Option ℕ
  sensors : SensorsResult
  deriving DecidableEq, Repr

/-- `get_metrics_async` (profile.py lines 32-40): macmon on macOS, the generic
psutil fallback elsewhere. -/
def get_metrics_async (env : MetricsEnv) : Except Exn (Option Metrics) :=
  if lowerAscii env.system = "darwin" then env.macmon
  else .ok (some (_collect_generic_metrics env.cpu_percent env.logical_cpu_count env.sensors))

/-- C7: on every non-macOS platform `get_metrics_async` returns a present
`Metrics` record (never `Absent`, never an error) whose two temperature fields
are the arithmetic mean of the flattened sensor currents (`0` when there are
none or the sensor subsystem errors), whose power fields are all `0`, whose
`pcpu_usage` is (logical CPU count, CPU percent), and whose timestamp is
empty. -/
theorem C7_generic_sampler (env : MetricsEnv) (h : lowerAscii env.system ≠ "darwin") :
    get_metrics_async env =
      .ok (some
        { all_power := 0, ane_power := 0, cpu_power := 0,
          ecpu_usage := (0, 0), gpu_power := 0, gpu_ram_power := 0,
          gpu_usage := (0, 0),
          pcpu_usage := (env.logical_cpu_count.getD 0, env.cpu_percent),
          ram_power := 0, sys_power := 0,
          temp := ⟨avgSensorTemp env.sensors, avgSensorTemp env.sensors⟩,
          timestamp := "" }) ∧
    (∀ groups, env.sensors = .ok groups → flatSensorCurrents groups ≠ [] →
        avgSensorTemp env.sensors = arithMean (flatSensorCurrents groups)) ∧
    (∀ groups, env.sensors = .ok groups → flatSensorCurrents groups = [] →
        avgSensorTemp env.sensors = 0) ∧
    (env.sensors = .err → avgSensorTemp env.sensors = 0) := by
  refine ⟨?_, ?_, ?_, ?_⟩
  · simp [get_metrics_async, h, _collect_generic_metrics]
  · intro groups hg hne
    simp [avgSensorTemp, hg, hne]
  · intro groups hg hnil
    simp [avgSensorTemp, hg, hnil]
  · intro he
    simp [avgSensorTemp, he]

/-- A concrete generic-platform sampling environment: two sensor groups with
currents 10 and 20 (one reading missing its value), eight logical CPUs, CPU
at 12 percent. -/
def envGenericSample : MetricsEnv :=
  { system := "Linux", macmon := .ok none, cpu_percent := 12,
    logical_cpu_count := some 8, sensors := .ok [[some 10, none], [some 20]] }

/-- Witness for C7 at the concrete environment: the produced record carries
temperature 15 (the mean of 10 and 20), `pcpu_usage = (8, 12)`, and zero power
fields. -/
theorem C7_generic_sampler_witness :
    lowerAscii envGenericSample.system ≠ "darwin" ∧
    get_metrics_async envGenericSample =
      .ok (some
        { all_power := 0, ane_power := 0, cpu_power := 0,
          ecpu_usage := (0, 0), gpu_power := 0, gpu_ram_power := 0,
          gpu_usage := (0, 0),
          pcpu_usage := (envGenericSample.logical_cpu_count.getD 0, envGenericSample.cpu_percent),
          ram_power := 0, sys_power := 0,
          temp := ⟨avgSensorTemp envGenericSample.sensors, avgSensorTemp envGenericSample.sensors⟩,
          timestamp := "" }) ∧
    avgSensorTemp envGenericSample.sensors = 15 :=
  ⟨by decide, (C7_generic_sampler envGenericSample (by decide)).1,
    by
      norm_num [envGenericSample, avgSensorTemp, flatSensorCurrents, arithMean,
        List.filterMap_cons]
      exact List.cons_ne_nil 10 [20]⟩

/-! ## Memory profile (`profile.py` lines 78-87) -/

/-- Python's `int(s)` on the override string, restricted to the literal forms
`int` accepts without whitespace or underscores: an optional sign followed by
a nonempty digit sequence; `none` models the raised `ValueError`. -/
def digitSeqToNat : List Char → Option ℕ
  | [] => none
  | l => if l.all Char.isDigit
      then some (l.foldl (fun acc c => acc * 10 + (c.toNat - 48)) 0)
      else none

/-- See `digitSeqToNat`; handles the optional sign of `int(s)`. -/
def parsePyInt (s : String) : Option ℤ :=
  match s.data with
  | '-' :: rest => (digitSeqToNat rest).map (fun n => -(n : ℤ))
  | '+' :: rest => (digitSeqToNat rest).map (fun n => (n : ℤ))
  | l => (digitSeqToNat l).map (fun n => (n : ℤ))

/-- Modelled from the spec: `Memory` (module `exo.shared.types.memory`, not
under `src/`) carries a byte count, and `Memory.from_mb` builds it from a
megabyte count ("an optional integer (megabytes) read from environment/config
to override detected memory ceiling"). -/
structure Memory where
  in_bytes : ℤ
  deriving DecidableEq, Repr

/-- Modelled from the spec: megabytes to bytes. -/
def Memory.from_mb (mb : ℤ) : Memory := ⟨mb * 1024 * 1024⟩

/-- `MemoryPerformanceProfile` reduced to the field the spec constrains: the
reported memory ceiling in bytes. -/
structure MemoryPerformanceProfile where
  total_bytes : ℤ
  deriving DecidableEq, Repr

/-- Modelled from the spec: `MemoryPerformanceProfile.from_psutil` (module
`exo.shared.types.profiling`, not under `src/`) derives the profile from the
detected host total, except that a present `override_memory` byte count
"fully replaces the detected total, not just adjusts it". -/
def MemoryPerformanceProfile.from_psutil (detected_total : ℤ)
    (override_memory : Option ℤ) : MemoryPerformanceProfile :=
  ⟨override_memory.getD detected_total⟩

/-- `get_memory_profile` (profile.py lines 78-87): read `OVERRIDE_MEMORY_MB`
from the environment, convert a truthy value with `int` (a `ValueError` from a
malformed value is modelled as `.error .other`), and build the profile. -/
def get_memory_profile (override_memory_env : Option String) (detected_total : ℤ) :
    Except Exn MemoryPerformanceProfile :=
  match override_memory_env with
  | none => .ok (MemoryPerformanceProfile.from_psutil detected_total none)
  | some s =>
      if s = "" then .ok (MemoryPerformanceProfile.from_psutil detected_total none)
      else
        match parsePyInt s with
        | none => .error .other
        | some mb =>
            .ok (MemoryPerformanceProfile.from_psutil detected_total
                  (some (Memory.from_mb mb).in_bytes))

/-! ## Node profile model (`exo.shared.types.profiling`) -/

/-- `SystemPerformanceProfile`, with exactly the fields the node loop fills
(profile.py lines 136-143). -/
structure SystemPerformanceProfile where
  gpu_usage : ℚ
  temp : ℚ
  sys_power : ℚ
  pcpu_usage : ℚ
  ecpu_usage : ℚ
  ane_power : ℚ
  deriving DecidableEq, Repr

/-- `NodePerformanceProfile`, with the fields the node loop fills (profile.py
lines 130-144); network-interface descriptors are opaque strings. -/
structure NodePerformanceProfile where
  model_id : String
  chip_id : String
  friendly_name : String
  network_interfaces : List String
  memory : MemoryPerformanceProfile
  system : SystemPerformanceProfile
  deriving DecidableEq, Repr

/-! ## Polling engine (`profile.py` lines 90-154)

Each loop iteration is a `try` body followed by `except` clauses and a
`finally: await anyio.sleep(...)`.  A tick is modelled as the ordered list of
observable events it performs plus how its body ended; the loop runner then
threads ticks until its fuel runs out, the body returns (node loop `Absent`
path), or an uncaught exception propagates. -/

/-- Observable events of a loop iteration, in program order. -/
inductive Event where
  | sampleMetrics
  | fetchNetworkInterfaces
  | fetchModelAndChip
  | fetchFriendlyName
  | computeMemoryProfile
  | sinkNode (p : NodePerformanceProfile)
  | sinkMemory (p : MemoryPerformanceProfile)
  | logMacmonError
  | logTimeoutWarning
  | sleepInterval
  deriving DecidableEq, Repr

/-- `true` exactly on node-loop sink invocations. -/
def Event.isSinkNode : Event → Bool
  | .sinkNode _ => true
  | _ => false

/-- `true` exactly on memory-loop sink invocations. -/
def Event.isSinkMemory : Event → Bool
  | .sinkMemory _ => true
  | _ => false

/-- `true` exactly on logging events. -/
def Event.isLog : Event → Bool
  | .logMacmonError => true
  | .logTimeoutWarning => true
  | _ => false

/-- How a tick's `try` body ended: ran to completion, executed `return`
(the node loop's `Absent` path), or raised an exception. -/
inductive BodyResult where
  | done
  | absent
  | raised (e : Exn)
  deriving DecidableEq, Repr

/-- How a whole iteration (body, `except` clauses, `finally`) ended: continue
looping, return from the loop function, or propagate an uncaught exception. -/
inductive TickResult where
  | next
  | stop
  | propagate (e : Exn)
  deriving DecidableEq, Repr

/-- External inputs of one memory-loop iteration: the environment variable and
detected host total read by `get_memory_profile`, and whether the sink raises
(`none` = the awaited callback returns normally). -/
structure MemTickEnv where
  override_memory_env : Option String
  detected_total : ℤ
  sinkErr : Option Exn
  deriving DecidableEq, Repr

/-- The `try` body of `start_polling_memory_metrics` (profile.py lines
102-104): compute the profile, then await the callback with it. -/
def memTickBody (env : MemTickEnv) : List Event × BodyResult :=
  match get_memory_profile env.override_memory_env env.detected_total with
  | .error e => ([.computeMemoryProfile], .raised e)
  | .ok mem =>
      match env.sinkErr with
      | some e => ([.computeMemoryProfile, .sinkMemory mem], .raised e)
      | none => ([.computeMemoryProfile, .sinkMemory mem], .done)

/-- One full memory-loop iteration (profile.py lines 101-108): the body, an
`except MacMonError` clause that logs and falls through, and a `finally` sleep
that always runs; any other exception propagates after the sleep. -/
def memTick (env : MemTickEnv) : List Event × TickResult :=
  match memTickBody env with
  | (evs, .done) => (evs ++ [.sleepInterval], .next)
  | (evs, .absent) => (evs ++ [.sleepInterval], .stop)
  | (evs, .raised .macmon) => (evs ++ [.logMacmonError, .sleepInterval], .next)
  | (evs, .raised e) => (evs ++ [.sleepInterval], .propagate e)

/-- External inputs of one node-loop iteration: the sampling environment for
`get_metrics_async`, the outcomes of the three collaborator lookups, the
inputs of `get_memory_profile`, and whether the sink raises. -/
structure NodeTickEnv where
  metrics : MetricsEnv
  network : Except Exn (List String)
  modelChip : Except Exn (String × String)
  friendly : Except Exn String
  override_memory_env : Option String
  detected_total : ℤ
  sinkErr : Option Exn
  deriving DecidableEq, Repr

/-- The `try` body of `start_polling_node_metrics` (profile.py lines 116-145):
sample metrics (returning on `None`), fetch network interfaces, model/chip and
friendly name, compute the memory profile last, then await the callback with
the assembled `NodePerformanceProfile`. -/
def nodeTickBody (env : NodeTickEnv) : List Event × BodyResult :=
  match get_metrics_async env.metrics with
  | .error e => ([.sampleMetrics], .raised e)
  | .ok none => ([.sampleMetrics], .absent)
  | .ok (some metrics) =>
      match env.network with
      | .error e => ([.sampleMetrics, .fetchNetworkInterfaces], .raised e)
      | .ok network_interfaces =>
          match env.modelChip with
          | .error e =>
              ([.sampleMetrics, .fetchNetworkInterfaces, .fetchModelAndChip], .raised e)
          | .ok (model_id, chip_id) =>
              match env.friendly with
              | .error e =>
                  ([.sampleMetrics, .fetchNetworkInterfaces, .fetchModelAndChip,
                    .fetchFriendlyName], .raised e)
              | .ok friendly_name =>
                  match get_memory_profile env.override_memory_env env.detected_total with
                  | .error e =>
                      ([.sampleMetrics, .fetchNetworkInterfaces, .fetchModelAndChip,
                        .fetchFriendlyName, .computeMemoryProfile], .raised e)
                  | .ok memory_profile =>
                      let profile : NodePerformanceProfile :=
                        { model_id := model_id, chip_id := chip_id,
                          friendly_name := friendly_name,
                          network_interfaces := network_interfaces,
                          memory := memory_profile,
                          system :=
                            { gpu_usage := metrics.gpu_usage.2,
                              temp := metrics.temp.gpu_temp_avg,
                              sys_power := metrics.sys_power,
                              pcpu_usage := metrics.pcpu_usage.2,
                              ecpu_usage := metrics.ecpu_usage.2,
                              ane_power := metrics.ane_power } }
                      match env.sinkErr with
                      | some e =>
                          ([.sampleMetrics, .fetchNetworkInterfaces, .fetchModelAndChip,
                            .fetchFriendlyName, .computeMemoryProfile, .sinkNode profile],
                           .raised e)
                      | none =>
                          ([.sampleMetrics, .fetchNetworkInterfaces, .fetchModelAndChip,
                            .fetchFriendlyName, .computeMemoryProfile, .sinkNode profile],
                           .done)

/-- One full node-loop iteration (profile.py lines 115-154): the body, an
`except asyncio.TimeoutError` clause that logs a warning, an `except
MacMonError` clause that logs an error, and a `finally` sleep that always
runs; any other exception propagates after the sleep. -/
def nodeTick (env : NodeTickEnv) : List Event × TickResult :=
  match nodeTickBody env with
  | (evs, .done) => (evs ++ [.sleepInterval], .next)
  | (evs, .absent) => (evs ++ [.sleepInterval], .stop)
  | (evs, .raised .timeout) => (evs ++ [.logTimeoutWarning, .sleepInterval], .next)
  | (evs, .raised .macmon) => (evs ++ [.logMacmonError, .sleepInterval], .next)
  | (evs, .raised e) => (evs ++ [.sleepInterval], .propagate e)

/-- Result of running a loop for a bounded number of iterations. -/
inductive LoopResult where
  | running
  | stopped
  | errored (e : Exn)
  deriving DecidableEq, Repr

/-- Run `start_polling_memory_metrics` for at most `n` iterations against the
per-iteration environments `envs`, collecting the event trace. -/
def runMemLoop (envs : ℕ → MemTickEnv) : ℕ → List Event × LoopResult
  | 0 => ([], .running)
  | n + 1 =>
      match memTick (envs 0) with
      | (evs, .next) =>
          let rest := runMemLoop (fun i => envs (i + 1)) n
          (evs ++ rest.1, rest.2)
      | (evs, .stop) => (evs, .stopped)
      | (evs, .propagate e) => (evs, .errored e)

/-- Run `start_polling_node_metrics` for at most `n` iterations against the
per-iteration environments `envs`, collecting the event trace. -/
def runNodeLoop (envs : ℕ → NodeTickEnv) : ℕ → List Event × LoopResult
  | 0 => ([], .running)
  | n + 1 =>
      match nodeTick (envs 0) with
      | (evs, .next) =>
          let rest := runNodeLoop (fun i => envs (i + 1)) n
          (evs ++ rest.1, rest.2)
      | (evs, .stop) => (evs, .stopped)
      | (evs, .propagate e) => (evs, .errored e)

/-- Total duration of a tick under an assignment of durations to its events
(the loop code contains no clock of its own, so durations are part of the
environment's semantics). -/
def tickDuration (d : Event → ℚ) (evs : List Event) : ℚ := (evs.map d).sum

/-! ## Tick-level helper lemmas -/

lemma memTick_done (env : MemTickEnv) (h : (memTickBody env).2 = .done) :
    memTick env = ((memTickBody env).1 ++ [.sleepInterval], .next) := by
  have hb : memTickBody env = ((memTickBody env).1, .done) := by rw [← h]
  simp only [memTick]
  rw [hb]

lemma memTick_macmon (env : MemTickEnv) (h : (memTickBody env).2 = .raised .macmon) :
    memTick env = ((memTickBody env).1 ++ [.logMacmonError, .sleepInterval], .next) := by
  have hb : memTickBody env = ((memTickBody env).1, .raised .macmon) := by rw [← h]
  simp only [memTick]
  rw [hb]

lemma nodeTick_done (env : NodeTickEnv) (h : (nodeTickBody env).2 = .done) :
    nodeTick env = ((nodeTickBody env).1 ++ [.sleepInterval], .next) := by
  have hb : nodeTickBody env = ((nodeTickBody env).1, .done) := by rw [← h]
  simp only [nodeTick]
  rw [hb]

lemma nodeTick_timeout (env : NodeTickEnv) (h : (nodeTickBody env).2 = .raised .timeout) :
    nodeTick env = ((nodeTickBody env).1 ++ [.logTimeoutWarning, .sleepInterval], .next) := by
  have hb : nodeTickBody env = ((nodeTickBody env).1, .raised .timeout) := by rw [← h]
  simp only [nodeTick]
  rw [hb]

lemma memTickBody_events (env : MemTickEnv) :
    (memTickBody env).1 = [.computeMemoryProfile] ∨
    ∃ mem, (memTickBody env).1 = [.computeMemoryProfile, .sinkMemory mem] := by
  unfold memTickBody
  cases hg : get_memory_profile env.override_memory_env env.detected_total with
  | error e => exact .inl rfl
  | ok mem =>
      cases hs : env.sinkErr with
      | some e => exact .inr ⟨mem, rfl⟩
      | none => exact .inr ⟨mem, rfl⟩

lemma memTickBody_counts (env : MemTickEnv) :
    (memTickBody env).1.count Event.logMacmonError = 0 ∧
    (memTickBody env).1.count Event.sleepInterval = 0 := by
  rcases memTickBody_events env with h | ⟨mem, h⟩ <;> rw [h] <;> exact ⟨rfl, rfl⟩

/-! ## C3: the memory loop survives any number of consecutive MacMonError ticks -/

/-- C3: whenever `n` consecutive memory-loop iterations each raise
`MacMonError` inside the `try` body (from the sampler or the sink), the loop
logs the fault once per iteration, sleeps once per iteration, never lets the
fault propagate, and is still running after all `n` iterations. -/
theorem C3_memory_loop_never_stops (envs : ℕ → MemTickEnv) (n : ℕ)
    (h : ∀ i, (memTickBody (envs i)).2 = .raised .macmon) :
    (runMemLoop envs n).2 = .running ∧
    (runMemLoop envs n).1.count Event.logMacmonError = n ∧
    (runMemLoop envs n).1.count Event.sleepInterval = n := by
  induction n generalizing envs with
  | zero => exact ⟨rfl, rfl, rfl⟩
  | succ n ih =>
      unfold runMemLoop
      rw [memTick_macmon (envs 0) (h 0)]
      obtain ⟨h1, h2, h3⟩ := ih (fun i => envs (i + 1)) (fun i => h (i + 1))
      obtain ⟨hc1, hc2⟩ := memTickBody_counts (envs 0)
      refine ⟨h1, ?_, ?_⟩ <;>
        simp [List.count_append, h2, h3, hc1, hc2, List.count_cons, Nat.add_comm]

/-- A memory-loop iteration environment whose sink raises `MacMonError`. -/
def envMemSinkFault : MemTickEnv :=
  { override_memory_env := none, detected_total := 16, sinkErr := some .macmon }

/-- Witness for C3: two consecutive all-faulting iterations leave the loop
running with two logs and two sleeps. -/
theorem C3_memory_loop_never_stops_witness :
    (∀ i : ℕ, (memTickBody ((fun _ => envMemSinkFault) i)).2 = .raised .macmon) ∧
    (runMemLoop (fun _ => envMemSinkFault) 2).2 = .running ∧
    (runMemLoop (fun _ => envMemSinkFault) 2).1.count Event.logMacmonError = 2 ∧
    (runMemLoop (fun _ => envMemSinkFault) 2).1.count Event.sleepInterval = 2 :=
  ⟨fun _ => rfl, C3_memory_loop_never_stops (fun _ => envMemSinkFault) 2 (fun _ => rfl)⟩

/-! ## C2: which failures the loops isolate -/

/-- A memory-loop iteration whose sampler raises a non-MacMon exception: the
override variable holds a string `int()` cannot parse, so `get_memory_profile`
raises `ValueError`. -/
def envMemValueFault : MemTickEnv :=
  { override_memory_env := some "not-a-number", detected_total := 16, sinkErr := none }

/-- Counterexample to C2 as stated: a single memory-loop tick whose body
raises an exception that is not `MacMonError` (here the `ValueError` from
`int("not-a-number")`) terminates the loop with the exception propagating. -/
theorem C2_counterexample :
    (memTickBody envMemValueFault).2 = .raised .other ∧
    (runMemLoop (fun _ => envMemValueFault) 1).2 = .errored .other := by
  exact ⟨rfl, rfl⟩

/-- C2 amended: the memory loop isolates exactly `MacMonError`, and the node
loop isolates exactly `MacMonError` and `asyncio.TimeoutError`; a tick failure
of any other kind propagates out of the loop. -/
theorem C2_isolation_exactly_named_faults :
    (∀ (env : MemTickEnv) (e : Exn),
        (memTick env).2 = .propagate e ↔
          ((memTickBody env).2 = .raised e ∧ e ≠ .macmon)) ∧
    (∀ (env : NodeTickEnv) (e : Exn),
        (nodeTick env).2 = .propagate e ↔
          ((nodeTickBody env).2 = .raised e ∧ e ≠ .macmon ∧ e ≠ .timeout)) := by
  constructor
  · intro env e
    have hb : memTickBody env = ((memTickBody env).1, (memTickBody env).2) := rfl
    simp only [memTick]
    rw [hb]
    cases h2 : (memTickBody env).2 with
    | done => simp
    | absent => simp
    | raised e2 => cases e2 <;> cases e <;> simp
  · intro env e
    have hb : nodeTickBody env = ((nodeTickBody env).1, (nodeTickBody env).2) := rfl
    simp only [nodeTick]
    rw [hb]
    cases h2 : (nodeTickBody env).2 with
    | done => simp
    | absent => simp
    | raised e2 => cases e2 <;> cases e <;> simp

/-! ## C1: operation timeouts inside a node-loop tick -/

lemma nodeTick_propagate_only_other (env : NodeTickEnv) (e : Exn)
    (h : (nodeTick env).2 = .propagate e) : e = .other := by
  have hb : nodeTickBody env = ((nodeTickBody env).1, (nodeTickBody env).2) := rfl
  simp only [nodeTick] at h
  rw [hb] at h
  cases h2 : (nodeTickBody env).2 with
  | done => rw [h2] at h; simp at h
  | absent => rw [h2] at h; simp at h
  | raised e2 =>
      rw [h2] at h
      cases e2 with
      | macmon => injection h
      | timeout => injection h
      | other =>
          injection h with h3
          exact h3.symm

lemma runNodeLoop_no_timeout (envs : ℕ → NodeTickEnv) (n : ℕ) :
    (runNodeLoop envs n).2 ≠ .errored .timeout := by
  induction n generalizing envs with
  | zero => simp [runNodeLoop]
  | succ n ih =>
      unfold runNodeLoop
      have hb : nodeTick (envs 0) = ((nodeTick (envs 0)).1, (nodeTick (envs 0)).2) := rfl
      rw [hb]
      cases h2 : (nodeTick (envs 0)).2 with
      | next => exact ih (fun i => envs (i + 1))
      | stop => simp
      | propagate e =>
          have he := nodeTick_propagate_only_other (envs 0) e h2
          subst he
          simp

/-- C1 (amended): whenever a node-loop tick's body raises the operation
timeout (`asyncio.TimeoutError`, from any awaited step — the loop itself
imposes no budget of its own), the iteration logs the timeout warning, still
sleeps, and continues; a timeout is never propagated out of the loop under any
schedule and any number of iterations. -/
theorem C1_timeout_logged_and_contained (env : NodeTickEnv)
    (h : (nodeTickBody env).2 = .raised .timeout) :
    (nodeTick env).2 = .next ∧
    (nodeTick env).1 = (nodeTickBody env).1 ++ [.logTimeoutWarning, .sleepInterval] ∧
    ∀ (envs : ℕ → NodeTickEnv) (n : ℕ), (runNodeLoop envs n).2 ≠ .errored .timeout := by
  refine ⟨?_, ?_, fun envs n => runNodeLoop_no_timeout envs n⟩
  · rw [nodeTick_timeout env h]
  · rw [nodeTick_timeout env h]

/-- A node-loop iteration in which the native sampler raises the timeout. -/
def envNodeTimeout : NodeTickEnv :=
  { metrics := { system := "Darwin", macmon := .error .timeout, cpu_percent := 0,
                 logical_cpu_count := none, sensors := .err },
    network := .ok [], modelChip := .ok ("m", "c"), friendly := .ok "f",
    override_memory_env := none, detected_total := 1, sinkErr := none }

/-- Witness for C1 (amended) at a concrete timeout-raising tick. -/
theorem C1_timeout_logged_and_contained_witness :
    (nodeTickBody envNodeTimeout).2 = .raised .timeout ∧
    (nodeTick envNodeTimeout).2 = .next ∧
    Event.logTimeoutWarning ∈ (nodeTick envNodeTimeout).1 :=
  ⟨rfl, (C1_timeout_logged_and_contained envNodeTimeout rfl).1, by decide⟩

/-- A node-loop iteration that succeeds on a generic platform. -/
def envSlowSink : NodeTickEnv :=
  { metrics := { system := "linux", macmon := .ok none, cpu_percent := 0,
                 logical_cpu_count := none, sensors := .err },
    network := .ok [], modelChip := .ok ("m", "c"), friendly := .ok "f",
    override_memory_env := none, detected_total := 1, sinkErr := none }

/-- The profile `envSlowSink`'s tick hands to the sink. -/
def profileSlowSink : NodePerformanceProfile :=
  { model_id := "m", chip_id := "c", friendly_name := "f", network_interfaces := [],
    memory := ⟨1⟩,
    system := { gpu_usage := 0, temp := 0, sys_power := 0, pcpu_usage := 0,
                ecpu_usage := 0, ane_power := 0 } }

/-- A duration assignment under which the sink invocation alone takes 40
seconds and every other step one second. -/
def slowSinkDuration : Event → ℚ
  | .sinkNode _ => 40
  | _ => 1

/-- Counterexample to C1 as stated: no code in the loop subjects the tick to a
30-second budget.  A tick whose steps take 46 seconds in total (a 40-second
sink) raises no operation timeout, logs nothing, and continues normally. -/
theorem C1_no_tick_budget_counterexample :
    tickDuration slowSinkDuration (nodeTick envSlowSink).1 > 30 ∧
    (nodeTickBody envSlowSink).2 = .done ∧
    (nodeTick envSlowSink).2 = .next ∧
    Event.logTimeoutWarning ∉ (nodeTick envSlowSink).1 := by
  have hev : (nodeTick envSlowSink).1 =
      [.sampleMetrics, .fetchNetworkInterfaces, .fetchModelAndChip, .fetchFriendlyName,
       .computeMemoryProfile, .sinkNode profileSlowSink, .sleepInterval] := rfl
  refine ⟨?_, rfl, rfl, ?_⟩
  · rw [hev]
    norm_num [tickDuration, slowSinkDuration]
  · rw [hev]
    decide

/-! ## C10: the `finally` sleep runs on the `Absent` exit path -/

lemma nodeTick_absent (env : NodeTickEnv) (h : get_metrics_async env.metrics = .ok none) :
    nodeTick env = ([.sampleMetrics, .sleepInterval], .stop) := by
  have hb : nodeTickBody env = ([.sampleMetrics], .absent) := by
    unfold nodeTickBody
    rw [h]
  simp only [nodeTick]
  rw [hb]
  rfl

/-- C10: when the metrics source yields `None`, the iteration's trace is the
sample followed by the unconditional `finally` sleep, and only then does the
loop function return (`stop`): silent termination is delayed by one full poll
interval after the last sample. -/
theorem C10_absent_exit_sleeps_first (env : NodeTickEnv)
    (h : get_metrics_async env.metrics = .ok none) :
    nodeTick env = ([.sampleMetrics, .sleepInterval], .stop) :=
  nodeTick_absent env h

/-- A node-loop iteration in which the native sampler reports `Absent`. -/
def envNodeAbsent : NodeTickEnv :=
  { metrics := { system := "Darwin", macmon := .ok none, cpu_percent := 0,
                 logical_cpu_count := none, sensors := .err },
    network := .ok [], modelChip := .ok ("m", "c"), friendly := .ok "f",
    override_memory_env := none, detected_total := 1, sinkErr := none }

/-- Witness for C10 at a concrete `Absent` tick. -/
theorem C10_absent_exit_sleeps_first_witness :
    get_metrics_async envNodeAbsent.metrics = .ok none ∧
    nodeTick envNodeAbsent = ([.sampleMetrics, .sleepInterval], .stop) :=
  ⟨rfl, C10_absent_exit_sleeps_first envNodeAbsent rfl⟩

/-! ## C9: the memory profile is computed last in a successful tick -/

lemma nodeTickBody_done_shape (env : NodeTickEnv) (h : (nodeTickBody env).2 = .done) :
    ∃ p, nodeTickBody env =
      ([.sampleMetrics, .fetchNetworkInterfaces, .fetchModelAndChip, .fetchFriendlyName,
        .computeMemoryProfile, .sinkNode p], .done) := by
  cases hg : get_metrics_async env.metrics with
  | error e =>
      have hval : nodeTickBody env = ([.sampleMetrics], .raised e) := by
        unfold nodeTickBody; rw [hg]
      rw [hval] at h
      simp at h
  | ok om =>
      cases om with
      | none =>
          have hval : nodeTickBody env = ([.sampleMetrics], .absent) := by
            unfold nodeTickBody; rw [hg]
          rw [hval] at h
          simp at h
      | some metrics =>
          cases hn : env.network with
          | error e =>
              have hval : nodeTickBody env =
                  ([.sampleMetrics, .fetchNetworkInterfaces], .raised e) := by
                unfold nodeTickBody; rw [hg, hn]
              rw [hval] at h
              simp at h
          | ok netifs =>
              rcases hmc : env.modelChip with e | ⟨model_id, chip_id⟩
              · have hval : nodeTickBody env =
                    ([.sampleMetrics, .fetchNetworkInterfaces, .fetchModelAndChip],
                     .raised e) := by
                  unfold nodeTickBody; rw [hg, hn, hmc]
                rw [hval] at h
                simp at h
              · cases hf : env.friendly with
                | error e =>
                    have hval : nodeTickBody env =
                        ([.sampleMetrics, .fetchNetworkInterfaces, .fetchModelAndChip,
                          .fetchFriendlyName], .raised e) := by
                      unfold nodeTickBody; rw [hg, hn, hmc, hf]
                    rw [hval] at h
                    simp at h
                | ok friendly_name =>
                    cases hmem : get_memory_profile env.override_memory_env
                        env.detected_total with
                    | error e =>
                        have hval : nodeTickBody env =
                            ([.sampleMetrics, .fetchNetworkInterfaces, .fetchModelAndChip,
                              .fetchFriendlyName, .computeMemoryProfile], .raised e) := by
                          unfold nodeTickBody; rw [hg, hn, hmc, hf, hmem]
                        rw [hval] at h
                        simp at h
                    | ok memory_profile =>
                        cases hs : env.sinkErr with
                        | some e =>
                            have hval : (nodeTickBody env).2 = .raised e := by
                              unfold nodeTickBody; rw [hg, hn, hmc, hf, hmem, hs]
                            rw [hval] at h
                            simp at h
                        | none =>
                            exact ⟨_, by unfold nodeTickBody; rw [hg, hn, hmc, hf, hmem, hs]⟩

/-- C9: in every successful node-loop tick the `computeMemoryProfile` step is
strictly after the metrics sample, the network-interface fetch and both
identity lookups, and strictly before the assembled profile is handed to the
sink: the trace is exactly this sequence. -/
theorem C9_memory_profile_computed_last (env : NodeTickEnv)
    (h : (nodeTickBody env).2 = .done) :
    ∃ p, (nodeTick env).1 =
      [.sampleMetrics, .fetchNetworkInterfaces, .fetchModelAndChip, .fetchFriendlyName,
       .computeMemoryProfile, .sinkNode p, .sleepInterval] := by
  obtain ⟨p, hp⟩ := nodeTickBody_done_shape env h
  refine ⟨p, ?_⟩
  rw [nodeTick_done env h, hp]
  rfl

/-- A fully successful node-loop iteration on a generic platform. -/
def envNodeOk : NodeTickEnv :=
  { metrics := { system := "linux", macmon := .ok none, cpu_percent := 5,
                 logical_cpu_count := some 2, sensors := .err },
    network := .ok ["eth0"], modelChip := .ok ("model", "chip"), friendly := .ok "node",
    override_memory_env := none, detected_total := 32, sinkErr := none }

/-- Witness for C9 at a concrete successful tick. -/
theorem C9_memory_profile_computed_last_witness :
    (nodeTickBody envNodeOk).2 = .done ∧
    ∃ p, (nodeTick envNodeOk).1 =
      [.sampleMetrics, .fetchNetworkInterfaces, .fetchModelAndChip, .fetchFriendlyName,
       .computeMemoryProfile, .sinkNode p, .sleepInterval] :=
  ⟨rfl, C9_memory_profile_computed_last envNodeOk rfl⟩

/-! ## C4: sink invocations before the `Absent` exit -/

/-- A node-loop iteration whose network-interface fetch raises `MacMonError`
after a successful metrics sample. -/
def envNodeNetFault : NodeTickEnv :=
  { metrics := { system := "linux", macmon := .ok none, cpu_percent := 0,
                 logical_cpu_count := none, sensors := .err },
    network := .error .macmon, modelChip := .ok ("m", "c"), friendly := .ok "f",
    override_memory_env := none, detected_total := 1, sinkErr := none }

/-- Iteration 1 faults after its sample; iteration 2 samples `Absent`. -/
def c4Envs : ℕ → NodeTickEnv :=
  fun i => if i = 0 then envNodeNetFault else envNodeAbsent

/-- Counterexample to C4 as stated: in this run the metrics source yields
`Absent` for the first time on iteration K = 2, yet the sink has been invoked
0 times, not K − 1 = 1 — the first iteration raised a recoverable fault after
its (present) sample and never reached the sink. -/
theorem C4_sink_count_counterexample :
    get_metrics_async (c4Envs 0).metrics ≠ .ok none ∧
    get_metrics_async (c4Envs 1).metrics = .ok none ∧
    (runNodeLoop c4Envs 2).2 = .stopped ∧
    (runNodeLoop c4Envs 2).1.countP Event.isSinkNode = 0 ∧
    (0 : ℕ) ≠ 2 - 1 := by
  refine ⟨by decide, by decide, by decide, by decide, by decide⟩

/-- C4 (amended): in every run whose first K−1 iterations complete their body
without fault and whose K-th iteration samples `Absent`, the sink is invoked
exactly K−1 times, the loop stops with no error result, and nothing is logged
anywhere in the run — in particular not on the exit path. -/
theorem C4_silent_stop_after_clean_run (K : ℕ) (envs : ℕ → NodeTickEnv)
    (hK : 1 ≤ K)
    (hpre : ∀ i, i + 1 < K → (nodeTickBody (envs i)).2 = .done)
    (habs : get_metrics_async (envs (K - 1)).metrics = .ok none) :
    (runNodeLoop envs K).2 = .stopped ∧
    (runNodeLoop envs K).1.countP Event.isSinkNode = K - 1 ∧
    (runNodeLoop envs K).1.countP Event.isLog = 0 := by
  obtain ⟨K2, rfl⟩ : ∃ K2, K = K2 + 1 := ⟨K - 1, (Nat.succ_pred_eq_of_pos hK).symm⟩
  clear hK
  induction K2 generalizing envs with
  | zero =>
      have ht := nodeTick_absent (envs 0) (by simpa using habs)
      unfold runNodeLoop
      rw [ht]
      exact ⟨rfl, rfl, rfl⟩
  | succ K2 ih =>
      have hd : (nodeTickBody (envs 0)).2 = .done := hpre 0 (by omega)
      obtain ⟨p, hp⟩ := nodeTickBody_done_shape (envs 0) hd
      have hsink : (nodeTickBody (envs 0)).1.countP Event.isSinkNode = 1 := by
        rw [hp]
        rfl
      have hlog : (nodeTickBody (envs 0)).1.countP Event.isLog = 0 := by
        rw [hp]
        rfl
      have ht := nodeTick_done (envs 0) hd
      obtain ⟨h1, h2, h3⟩ := ih (fun i => envs (i + 1))
        (fun i hi => hpre (i + 1) (by omega)) (by simpa using habs)
      unfold runNodeLoop
      rw [ht]
      simp only [List.countP_append]
      refine ⟨h1, ?_, ?_⟩
      · simp only [List.countP_append, hsink, h2, Nat.add_sub_cancel]
        simp [List.countP_cons, Event.isSinkNode]
        omega
      · simp only [List.countP_append, hlog, h3]
        simp [List.countP_cons, Event.isLog]

/-- A run in which two successful iterations precede the `Absent` sample. -/
def c4CleanEnvs : ℕ → NodeTickEnv :=
  fun i => if i < 2 then envNodeOk else envNodeAbsent

/-- Witness for C4 (amended): with K = 3, two clean iterations then `Absent`,
the loop stops with exactly two sink invocations and no log entries. -/
theorem C4_silent_stop_after_clean_run_witness :
    (1 ≤ 3 ∧ (∀ i : ℕ, i + 1 < 3 → (nodeTickBody (c4CleanEnvs i)).2 = .done) ∧
      get_metrics_async (c4CleanEnvs (3 - 1)).metrics = .ok none) ∧
    (runNodeLoop c4CleanEnvs 3).2 = .stopped ∧
    (runNodeLoop c4CleanEnvs 3).1.countP Event.isSinkNode = 2 ∧
    (runNodeLoop c4CleanEnvs 3).1.countP Event.isLog = 0 := by
  have hpre : ∀ i : ℕ, i + 1 < 3 → (nodeTickBody (c4CleanEnvs i)).2 = .done := by
    intro i hi
    have hi2 : i < 2 := by omega
    interval_cases i <;> decide
  exact ⟨⟨by omega, hpre, by decide⟩,
    C4_silent_stop_after_clean_run 3 c4CleanEnvs (by omega) hpre (by decide)⟩

/-! ## C8: a set memory override fully replaces the detected total -/

lemma get_memory_profile_override (s : String) (mb : ℤ) (detected : ℤ)
    (hs : s ≠ "") (hparse : parsePyInt s = some mb) :
    get_memory_profile (some s) detected = .ok ⟨mb * 1024 * 1024⟩ := by
  simp only [get_memory_profile]
  rw [if_neg hs, hparse]
  rfl

lemma memTickBody_ok_events (env : MemTickEnv) (prof : MemoryPerformanceProfile)
    (h : get_memory_profile env.override_memory_env env.detected_total = .ok prof) :
    (memTickBody env).1 = [.computeMemoryProfile, .sinkMemory prof] := by
  unfold memTickBody
  rw [h]
  cases hs : env.sinkErr <;> rfl

lemma memTick_trace_parts (env : MemTickEnv) :
    (memTick env).1 = (memTickBody env).1 ++ [.sleepInterval] ∨
    (memTick env).1 = (memTickBody env).1 ++ [.logMacmonError, .sleepInterval] := by
  have hb : memTickBody env = ((memTickBody env).1, (memTickBody env).2) := rfl
  simp only [memTick]
  rw [hb]
  cases h2 : (memTickBody env).2 with
  | done => exact .inl rfl
  | absent => exact .inl rfl
  | raised e =>
      cases e with
      | macmon => exact .inr rfl
      | timeout => exact .inl rfl
      | other => exact .inl rfl

lemma nodeTick_trace_parts (env : NodeTickEnv) :
    (nodeTick env).1 = (nodeTickBody env).1 ++ [.sleepInterval] ∨
    (nodeTick env).1 = (nodeTickBody env).1 ++ [.logMacmonError, .sleepInterval] ∨
    (nodeTick env).1 = (nodeTickBody env).1 ++ [.logTimeoutWarning, .sleepInterval] := by
  have hb : nodeTickBody env = ((nodeTickBody env).1, (nodeTickBody env).2) := rfl
  simp only [nodeTick]
  rw [hb]
  cases h2 : (nodeTickBody env).2 with
  | done => exact .inl rfl
  | absent => exact .inl rfl
  | raised e =>
      cases e with
      | macmon => exact .inr (.inl rfl)
      | timeout => exact .inr (.inr rfl)
      | other => exact .inl rfl

lemma nodeTickBody_sink_memory (env : NodeTickEnv) (prof : MemoryPerformanceProfile)
    (hmem : get_memory_profile env.override_memory_env env.detected_total = .ok prof)
    (p : NodePerformanceProfile) (hp : Event.sinkNode p ∈ (nodeTickBody env).1) :
    p.memory = prof := by
  cases hg : get_metrics_async env.metrics with
  | error e =>
      have hval : nodeTickBody env = ([.sampleMetrics], .raised e) := by
        unfold nodeTickBody; rw [hg]
      rw [hval] at hp
      simp at hp
  | ok om =>
      cases om with
      | none =>
          have hval : nodeTickBody env = ([.sampleMetrics], .absent) := by
            unfold nodeTickBody; rw [hg]
          rw [hval] at hp
          simp at hp
      | some metrics =>
          cases hn : env.network with
          | error e =>
              have hval : nodeTickBody env =
                  ([.sampleMetrics, .fetchNetworkInterfaces], .raised e) := by
                unfold nodeTickBody; rw [hg, hn]
              rw [hval] at hp
              simp at hp
          | ok netifs =>
              rcases hmc : env.modelChip with e | ⟨model_id, chip_id⟩
              · have hval : nodeTickBody env =
                    ([.sampleMetrics, .fetchNetworkInterfaces, .fetchModelAndChip],
                     .raised e) := by
                  unfold nodeTickBody; rw [hg, hn, hmc]
                rw [hval] at hp
                simp at hp
              · cases hf : env.friendly with
                | error e =>
                    have hval : nodeTickBody env =
                        ([.sampleMetrics, .fetchNetworkInterfaces, .fetchModelAndChip,
                          .fetchFriendlyName], .raised e) := by
                      unfold nodeTickBody; rw [hg, hn, hmc, hf]
                    rw [hval] at hp
                    simp at hp
                | ok friendly_name =>
                    cases hs2 : env.sinkErr with
                    | some e =>
                        have hval : nodeTickBody env =
                            ([.sampleMetrics, .fetchNetworkInterfaces, .fetchModelAndChip,
                              .fetchFriendlyName, .computeMemoryProfile,
                              .sinkNode
                                { model_id := model_id, chip_id := chip_id,
                                  friendly_name := friendly_name,
                                  network_interfaces := netifs, memory := prof,
                                  system :=
                                    { gpu_usage := metrics.gpu_usage.2,
                                      temp := metrics.temp.gpu_temp_avg,
                                      sys_power := metrics.sys_power,
                                      pcpu_usage := metrics.pcpu_usage.2,
                                      ecpu_usage := metrics.ecpu_usage.2,
                                      ane_power := metrics.ane_power } }],
                             .raised e) := by
                          unfold nodeTickBody; rw [hg, hn, hmc, hf, hmem, hs2]
                        rw [hval] at hp
                        simp at hp
                        rw [hp]
                    | none =>
                        have hval : nodeTickBody env =
                            ([.sampleMetrics, .fetchNetworkInterfaces, .fetchModelAndChip,
                              .fetchFriendlyName, .computeMemoryProfile,
                              .sinkNode
                                { model_id := model_id, chip_id := chip_id,
                                  friendly_name := friendly_name,
                                  network_interfaces := netifs, memory := prof,
                                  system :=
                                    { gpu_usage := metrics.gpu_usage.2,
                                      temp := metrics.temp.gpu_temp_avg,
                                      sys_power := metrics.sys_power,
                                      pcpu_usage := metrics.pcpu_usage.2,
                                      ecpu_usage := metrics.ecpu_usage.2,
                                      ane_power := metrics.ane_power } }],
                             .done) := by
                          unfold nodeTickBody; rw [hg, hn, hmc, hf, hmem, hs2]
                        rw [hval] at hp
                        simp at hp
                        rw [hp]

/-- C8: whenever the override environment variable holds a nonempty value the
Python `int` accepts (say `mb` megabytes), `get_memory_profile` — re-invoked
by each loop on each tick — produces exactly the overridden ceiling
`mb * 1024 * 1024` bytes regardless of the detected host total, and every
profile either loop hands to its sink on such a tick reports exactly that
ceiling. -/
theorem C8_override_fully_replaces (menv : MemTickEnv) (nenv : NodeTickEnv)
    (s : String) (mb : ℤ)
    (hm : menv.override_memory_env = some s) (hn : nenv.override_memory_env = some s)
    (hs : s ≠ "") (hparse : parsePyInt s = some mb) :
    get_memory_profile menv.override_memory_env menv.detected_total =
      .ok ⟨mb * 1024 * 1024⟩ ∧
    get_memory_profile nenv.override_memory_env nenv.detected_total =
      .ok ⟨mb * 1024 * 1024⟩ ∧
    (∀ p, Event.sinkMemory p ∈ (memTick menv).1 → p = ⟨mb * 1024 * 1024⟩) ∧
    (∀ p, Event.sinkNode p ∈ (nodeTick nenv).1 → p.memory = ⟨mb * 1024 * 1024⟩) := by
  have h1 : get_memory_profile menv.override_memory_env menv.detected_total =
      .ok ⟨mb * 1024 * 1024⟩ := by
    rw [hm]
    exact get_memory_profile_override s mb menv.detected_total hs hparse
  have h2 : get_memory_profile nenv.override_memory_env nenv.detected_total =
      .ok ⟨mb * 1024 * 1024⟩ := by
    rw [hn]
    exact get_memory_profile_override s mb nenv.detected_total hs hparse
  refine ⟨h1, h2, ?_, ?_⟩
  · intro p hp
    have hbody := memTickBody_ok_events menv _ h1
    rcases memTick_trace_parts menv with ht | ht <;>
      rw [ht, hbody] at hp <;> simp at hp <;> exact hp
  · intro p hp
    have hp2 : Event.sinkNode p ∈ (nodeTickBody nenv).1 := by
      rcases nodeTick_trace_parts nenv with ht | ht | ht <;>
        rw [ht] at hp <;> simpa using hp
    exact nodeTickBody_sink_memory nenv _ h2 p hp2

/-- A memory-loop iteration with the override set to 4096 MB on a host whose
detected total is unrelated. -/
def menvOverride : MemTickEnv :=
  { override_memory_env := some "4096", detected_total := 999, sinkErr := none }

/-- A node-loop iteration with the same override on a generic platform. -/
def nenvOverride : NodeTickEnv :=
  { metrics := { system := "linux", macmon := .ok none, cpu_percent := 0,
                 logical_cpu_count := none, sensors := .err },
    network := .ok [], modelChip := .ok ("m", "c"), friendly := .ok "f",
    override_memory_env := some "4096", detected_total := 123456789, sinkErr := none }

/-- Witness for C8: with `OVERRIDE_MEMORY_MB=4096`, both loops produce
profiles reporting exactly 4096 MB in bytes. -/
theorem C8_override_fully_replaces_witness :
    (menvOverride.override_memory_env = some "4096" ∧
     nenvOverride.override_memory_env = some "4096" ∧
     ("4096" : String) ≠ "" ∧ parsePyInt "4096" = some 4096) ∧
    get_memory_profile menvOverride.override_memory_env menvOverride.detected_total =
      .ok ⟨4096 * 1024 * 1024⟩ ∧
    (∀ p, Event.sinkMemory p ∈ (memTick menvOverride).1 → p = ⟨4096 * 1024 * 1024⟩) :=
  ⟨⟨rfl, rfl, by decide, by decide⟩,
   (C8_override_fully_replaces menvOverride nenvOverride "4096" 4096 rfl rfl
      (by decide) (by decide)).1,
   (C8_override_fully_replaces menvOverride nenvOverride "4096" 4096 rfl rfl
      (by decide) (by decide)).2.2.1⟩

end Exo
